import Mathlib

/-!
Verification of the chart input-normalization logic of
`po-chart-base.component.ts` (class `PoChartBaseComponent`).

The component's setters are embedded shallowly: JavaScript runtime values
become the inductive `JSVal`, the component's private fields become a
`ChartState` record, and each Angular `@Input` setter becomes a state
transformer.  The abstract `rebuildComponent()` obligation is modelled as a
counter (`rebuilds`) that a setter increments when the source calls it.
The Angular `EventEmitter`s are modelled as logs of delivered payloads.

Helpers imported by the component from elsewhere in the repository
(`convertToInt`, `isTypeof` from `utils/util`, `calculateMaxValue` from
`helpers/maths`, the `PoChartType` enum) are not part of the provided
sources; they are modelled from the spec and carry doc comments saying so.
-/

/-- A JavaScript runtime value, restricted to the shapes the component can
observe.  `vnum none` is `NaN` (a value with `typeof` `number` that is falsy
and for which every ordering comparison is false); `vnum (some q)` is an
ordinary number, modelled as a rational.  Objects are finite lists of
own-key/value pairs; arrays are lists of elements. -/
inductive JSVal where
  | vundefined : JSVal
  | vnull : JSVal
  | vbool (b : Bool) : JSVal
  | vnum (n : Option ℚ) : JSVal
  | vstr (s : String) : JSVal
  | varr (elems : List JSVal) : JSVal
  | vobj (fields : List (String × JSVal)) : JSVal

/-- JavaScript `typeof` on the modelled values (`typeof null` is `"object"`,
`typeof NaN` is `"number"`, arrays are `"object"`). -/
def typeof : JSVal → String
  | .vundefined => "undefined"
  | .vnull => "object"
  | .vbool _ => "boolean"
  | .vnum _ => "number"
  | .vstr _ => "string"
  | .varr _ => "object"
  | .vobj _ => "object"

/-- JavaScript truthiness: `undefined`, `null`, `false`, `0`, `NaN` and the
empty string are falsy; every object and array (even empty) is truthy. -/
def truthy : JSVal → Bool
  | .vundefined => false
  | .vnull => false
  | .vbool b => b
  | .vnum none => false
  | .vnum (some q) => q != 0
  | .vstr s => s != ""
  | .varr _ => true
  | .vobj _ => true

/-- JavaScript `Object.keys`: throws a `TypeError` on `null`/`undefined`; own keys of an
object; index strings for an array or a string; empty for other primitives. -/
def objectKeys : JSVal → Except String (List String)
  | .vundefined => .error "TypeError: Cannot convert undefined to object"
  | .vnull => .error "TypeError: Cannot convert null to object"
  | .vobj fields => .ok (fields.map Prod.fst)
  | .varr elems => .ok ((List.range elems.length).map toString)
  | .vstr s => .ok ((List.range s.length).map toString)
  | .vbool _ => .ok []
  | .vnum _ => .ok []

/-- The object-spread `{ ...serie }`: a fresh object carrying a shallow copy
of the spread value's own enumerable properties.  At the value level a copy
of an object has the same field list; spreading an array yields an object
keyed by indices; spreading other primitives yields an empty object. -/
def shallowCopy : JSVal → JSVal
  | .vobj fields => .vobj fields
  | .varr elems => .vobj (elems.enum.map fun p => (toString p.1, p.2))
  | .vstr s => .vobj (s.toList.enum.map fun p => (toString p.1, JSVal.vstr (String.mk [p.2])))
  | _ => .vobj []

/-- Modelled from the spec: the `PoChartType` enumeration
(`enums/po-chart-type.enum`) is not among the provided sources.  The spec
describes "a fixed closed set (e.g. Pie, Donut, Line, Gauge, Area...)" with
default Pie; the members are taken to be exactly those five. -/
inductive ChartType where
  | pie : ChartType
  | donut : ChartType
  | line : ChartType
  | gauge : ChartType
  | area : ChartType
deriving DecidableEq

/-- Modelled from the spec: the string value each `PoChartType` member
carries (a TypeScript string enum; `Object.values` yields these strings). -/
def chartTypeValue : ChartType → String
  | .pie => "pie"
  | .donut => "donut"
  | .line => "line"
  | .gauge => "gauge"
  | .area => "area"

/-- Modelled from the spec: the inverse lookup used to interpret
`Object.values(PoChartType).includes(value)` — a runtime value is a member
of the enumeration exactly when it is one of the member strings. -/
def chartTypeOfString (s : String) : Option ChartType :=
  if s = "pie" then some .pie
  else if s = "donut" then some .donut
  else if s = "line" then some .line
  else if s = "gauge" then some .gauge
  else if s = "area" then some .area
  else none

/-- The constant `poChartDefaultHeight = 400`. -/
def poChartDefaultHeight : ℚ := 400

/-- The constant `poChartMinHeight = 200`. -/
def poChartMinHeight : ℚ := 200

/-- The constant `poChartTypeDefault = PoChartType.Pie`. -/
def poChartTypeDefault : ChartType := ChartType.pie

/-- Modelled from the spec: `PoChartMinMaxValues`
(`interfaces/po-chart-min-max-values.interface`) is not among the provided
sources; the spec gives `MinMaxValues: {min: number, max: number}`. -/
structure PoChartMinMaxValues where
  min : ℚ
  max : ℚ
deriving DecidableEq

/-- A series' numeric data points as scanned for min/max: a number field
contributes itself, an array field contributes its numeric elements. -/
def topNumbers : JSVal → List ℚ
  | .vnum (some q) => [q]
  | .varr elems => elems.filterMap fun v =>
      match v with
      | .vnum (some q) => some q
      | _ => none
  | _ => []

/-- The numeric data points of one series object: every numeric leaf found
in its fields (covers `{label, data: [...]}` as well as `{value: n}`). -/
def seriesNumbers : JSVal → List ℚ
  | .vobj fields => fields.flatMap fun kv => topNumbers kv.2
  | _ => []

/-- Modelled from the spec: `calculateMaxValue` (`helpers/maths`) is not
among the provided sources.  Per §4.3 it computes MinMax "by scanning every
series' data sequence and taking the global minimum and maximum numeric
value encountered", and an empty collection yields no MinMax; per §9 the
scanned values are every numeric leaf of each series object. -/
def calculateMaxValue (series : List JSVal) : Option PoChartMinMaxValues :=
  match series.flatMap seriesNumbers with
  | [] => none
  | q :: qs => some ⟨qs.foldl min q, qs.foldl max q⟩

/-- Truncation toward zero, the semantics of JavaScript's integer coercion
for finite numbers (`350.7 ↦ 350`, `-350.7 ↦ -350`). -/
def jsTrunc (q : ℚ) : ℤ :=
  if q < 0 then q.ceil else q.floor

/-- Modelled from the spec: `convertToInt` (`utils/util`) is not among the
provided sources.  Per §4.1 a number is coerced "to an integer (truncation
semantics, not rounding)"; a non-number (and `NaN`, which has no truncation)
yields no integer. -/
def convertToInt : JSVal → Option ℤ
  | .vnum (some q) => some (jsTrunc q)
  | _ => none

/-- Modelled from the spec: `isTypeof` (`utils/util`) is not among the
provided sources; it tests the runtime `typeof` tag of a value against a
type name, as its call site `isTypeof(value, 'number')` indicates. -/
def isTypeof (v : JSVal) (t : String) : Bool :=
  typeof v = t

/-- A JavaScript number as stored in a numeric field: `none` is `NaN`. -/
abbrev JSNum := Option ℚ

/-- The mutable fields of `PoChartBaseComponent`.  `none` in an `Option`
field is the JavaScript `undefined` of a not-yet-assigned class field.
`rebuilds` counts calls to the abstract `rebuildComponent()`; the two
`...Emitted` lists log the payloads delivered through the component's
`EventEmitter` outputs, in order. -/
structure ChartState where
  _axisOptions : Option JSVal
  _height : Option JSNum
  _series : JSVal
  _type : ChartType
  minMaxValues : Option PoChartMinMaxValues
  chartSeries : Option (List JSVal)
  rebuilds : ℕ
  clickEmitted : List JSVal
  hoverEmitted : List JSVal

/-- A freshly constructed component: every field `undefined` except
`_type`, initialised to `poChartTypeDefault`. -/
def initState : ChartState :=
  { _axisOptions := none
    _height := none
    _series := .vundefined
    _type := poChartTypeDefault
    minMaxValues := none
    chartSeries := none
    rebuilds := 0
    clickEmitted := []
    hoverEmitted := [] }

/-- Source method `private setDefaultHeight()`: 200 for gauge, 400 otherwise. -/
def setDefaultHeight (s : ChartState) : ℚ :=
  if s._type = ChartType.gauge then poChartMinHeight else poChartDefaultHeight

/-- The `p-height` setter: `convertToInt`, then if the raw value's `typeof`
is `number` clamp the integer at `poChartMinHeight` (a `NaN` integer fails
the `<=` comparison and is stored as is), else store the type-dependent
default; finally call `rebuildComponent()`. -/
def setHeight (s : ChartState) (value : JSVal) : ChartState :=
  let intValue := convertToInt value
  let height : JSNum :=
    if isTypeof value "number" then
      match intValue with
      | some k => if (k : ℚ) ≤ poChartMinHeight then some poChartMinHeight else some (k : ℚ)
      | none => none
    else some (setDefaultHeight s)
  { s with _height := some height, rebuilds := s.rebuilds + 1 }

/-- The `height` getter: `this._height || this.setDefaultHeight()` — a
stored height that is `undefined`, `NaN` or `0` falls back to the default. -/
def heightGet (s : ChartState) : ℚ :=
  match s._height with
  | some (some q) => if q = 0 then setDefaultHeight s else q
  | _ => setDefaultHeight s

/-- Source method `private transformObjectToArrayObject(serie)`:
`typeof serie === 'object' && Object.keys(serie).length ? [{ ...serie }] : []`.
`Object.keys` can throw, hence the `Except`. -/
def transformObjectToArrayObject (serie : JSVal) : Except String (List JSVal) :=
  if typeof serie = "object" then
    match objectKeys serie with
    | .error e => .error e
    | .ok ks => if ks.length ≠ 0 then .ok [shallowCopy serie] else .ok []
  else .ok []

/-- The `p-series` setter: `this._series = value || []`; an array is copied
into `chartSeries` and `minMaxValues` is recomputed from it; a non-array
goes through `transformObjectToArrayObject` and `minMaxValues` is left
untouched. -/
def setSeries (s : ChartState) (value : JSVal) : Except String ChartState :=
  let series := if truthy value then value else JSVal.varr []
  match series with
  | .varr l =>
      .ok { s with
              _series := .varr l
              minMaxValues := calculateMaxValue l
              chartSeries := some l }
  | other =>
      match transformObjectToArrayObject other with
      | .ok cs => .ok { s with _series := other, chartSeries := some cs }
      | .error e => .error e

/-- Run the `p-series` setter, keeping the prior state if it were to throw
(it never does; see the totality theorem). -/
def runSetSeries (s : ChartState) (value : JSVal) : ChartState :=
  match setSeries s value with
  | .ok s' => s'
  | .error _ => s

/-- The `p-type` setter:
`Object.values(PoChartType).includes(value) ? value : poChartTypeDefault`,
then `rebuildComponent()`. -/
def setType (s : ChartState) (value : JSVal) : ChartState :=
  let t :=
    match value with
    | .vstr str =>
        match chartTypeOfString str with
        | some t => t
        | none => poChartTypeDefault
    | _ => poChartTypeDefault
  { s with _type := t, rebuilds := s.rebuilds + 1 }

/-- The `p-axis-options` setter: a plain store, no rebuild. -/
def setAxisOptions (s : ChartState) (value : JSVal) : ChartState :=
  { s with _axisOptions := some value }

/-- Source method `onSeriesClick(event)`: `this.seriesClick.emit(event)` — the payload is
delivered to the `p-series-click` listener unchanged. -/
def onSeriesClick (s : ChartState) (event : JSVal) : ChartState :=
  { s with clickEmitted := s.clickEmitted ++ [event] }

/-- Source method `onSeriesHover(event)`: `this.seriesHover.emit(event)` — the payload is
delivered to the `p-series-hover` listener unchanged. -/
def onSeriesHover (s : ChartState) (event : JSVal) : ChartState :=
  { s with hoverEmitted := s.hoverEmitted ++ [event] }

/-- The spec's example line series `{label:'A', data:[1,5,3]}`. -/
def sampleSeriesA : JSVal :=
  .vobj [("label", .vstr "A"), ("data", .varr [.vnum (some 1), .vnum (some 5), .vnum (some 3)])]

/-- The spec's example line series `{label:'B', data:[-2,9]}`. -/
def sampleSeriesB : JSVal :=
  .vobj [("label", .vstr "B"), ("data", .varr [.vnum (some (-2)), .vnum (some 9)])]

/-- The spec's example gauge serie `{value: 42}`. -/
def sampleGaugeSerie : JSVal :=
  .vobj [("value", .vnum (some 42))]

/-- A heap of JavaScript objects for reasoning about aliasing: each object
lives at an address (its index) and holds its own key/value fields.  Field
values stay at the `JSVal` level; only the identity of the top-level serie
object matters for the shallow-copy contract. -/
structure Heap where
  objs : List (List (String × JSVal))

/-- Dereference an address: the fields of the object stored there. -/
def Heap.lookup (h : Heap) (r : ℕ) : Option (List (String × JSVal)) :=
  h.objs.get? r

/-- Assign one own property of the object at address `r` (the JavaScript
statement `o[k] = v`), leaving every other object untouched. -/
def updateField : List (String × JSVal) → String → JSVal → List (String × JSVal)
  | [], k, v => [(k, v)]
  | (k', v') :: rest, k, v =>
      if k' = k then (k, v) :: rest else (k', v') :: updateField rest k v

/-- Mutate a field of the object at address `r` in the heap. -/
def Heap.setField (h : Heap) (r : ℕ) (k : String) (v : JSVal) : Heap :=
  match h.objs.get? r with
  | some fields => ⟨h.objs.set r (updateField fields k v)⟩
  | none => h

/-- Source method `private transformObjectToArrayObject(serie)` at the
reference level: the spread `{ ...serie }` allocates a fresh object (at the
next free address) holding a shallow copy of the fields of the serie at
address `r`; an empty object yields an empty list and no allocation. -/
def transformObjectToArrayObjectRef (h : Heap) (r : ℕ) : Heap × List ℕ :=
  match h.objs.get? r with
  | some fields =>
      if fields.length ≠ 0 then (⟨h.objs ++ [fields]⟩, [h.objs.length]) else (h, [])
  | none => (h, [])

/-- Folding `min` never goes above the accumulator. -/
theorem foldl_min_le_init (l : List ℚ) : ∀ a : ℚ, l.foldl min a ≤ a := by
  induction l with
  | nil => intro a; exact le_refl a
  | cons x xs ih => intro a; exact le_trans (ih (min a x)) (min_le_left a x)

/-- Folding `max` never goes below the accumulator. -/
theorem le_foldl_max_init (l : List ℚ) : ∀ a : ℚ, a ≤ l.foldl max a := by
  induction l with
  | nil => intro a; exact le_refl a
  | cons x xs ih => intro a; exact le_trans (le_max_left a x) (ih (max a x))

/-- Folding `min` is a lower bound of every list element. -/
theorem foldl_min_le_mem (l : List ℚ) : ∀ a x, x ∈ l → l.foldl min a ≤ x := by
  induction l with
  | nil => intro a x hx; cases hx
  | cons y ys ih =>
      intro a x hx
      rcases List.mem_cons.mp hx with rfl | hx
      · exact le_trans (foldl_min_le_init ys (min a x)) (min_le_right a x)
      · exact ih (min a y) x hx

/-- Folding `max` is an upper bound of every list element. -/
theorem mem_le_foldl_max (l : List ℚ) : ∀ a x, x ∈ l → x ≤ l.foldl max a := by
  induction l with
  | nil => intro a x hx; cases hx
  | cons y ys ih =>
      intro a x hx
      rcases List.mem_cons.mp hx with rfl | hx
      · exact le_trans (le_max_right a x) (le_foldl_max_init ys (max a x))
      · exact ih (max a y) x hx

/-- The fold of `min` is the accumulator or one of the list elements. -/
theorem foldl_min_mem (l : List ℚ) : ∀ a : ℚ, l.foldl min a = a ∨ l.foldl min a ∈ l := by
  induction l with
  | nil => intro a; exact Or.inl rfl
  | cons x xs ih =>
      intro a
      rw [List.foldl_cons]
      rcases ih (min a x) with h | h
      · rw [h]
        rcases min_choice a x with h' | h'
        · exact Or.inl h'
        · exact Or.inr (by rw [h']; exact List.mem_cons_self x xs)
      · exact Or.inr (List.mem_cons_of_mem x h)

/-- The fold of `max` is the accumulator or one of the list elements. -/
theorem foldl_max_mem (l : List ℚ) : ∀ a : ℚ, l.foldl max a = a ∨ l.foldl max a ∈ l := by
  induction l with
  | nil => intro a; exact Or.inl rfl
  | cons x xs ih =>
      intro a
      rw [List.foldl_cons]
      rcases ih (max a x) with h | h
      · rw [h]
        rcases max_choice a x with h' | h'
        · exact Or.inl h'
        · exact Or.inr (by rw [h']; exact List.mem_cons_self x xs)
      · exact Or.inr (List.mem_cons_of_mem x h)

/-- A computed MinMax is ordered, attained, and bounds every scanned value. -/
theorem calculateMaxValue_spec (series : List JSVal) (mm : PoChartMinMaxValues)
    (h : calculateMaxValue series = some mm) :
    mm.min ≤ mm.max ∧
    mm.min ∈ series.flatMap seriesNumbers ∧
    mm.max ∈ series.flatMap seriesNumbers ∧
    ∀ q ∈ series.flatMap seriesNumbers, mm.min ≤ q ∧ q ≤ mm.max := by
  unfold calculateMaxValue at h
  rcases hn : series.flatMap seriesNumbers with _ | ⟨q, qs⟩
  · rw [hn] at h; exact absurd h (by simp)
  · rw [hn] at h
    injection h with h
    subst h
    refine ⟨le_trans (foldl_min_le_init qs q) (le_foldl_max_init qs q), ?_, ?_, ?_⟩
    · rcases foldl_min_mem qs q with h | h
      · rw [h]; exact List.mem_cons_self q qs
      · exact List.mem_cons_of_mem q h
    · rcases foldl_max_mem qs q with h | h
      · rw [h]; exact List.mem_cons_self q qs
      · exact List.mem_cons_of_mem q h
    · intro x hx
      rcases List.mem_cons.mp hx with rfl | hx
      · exact ⟨foldl_min_le_init qs x, le_foldl_max_init qs x⟩
      · exact ⟨foldl_min_le_mem qs q x hx, mem_le_foldl_max qs q x hx⟩

/-- An empty scan yields no MinMax. -/
theorem calculateMaxValue_eq_none (series : List JSVal)
    (h : series.flatMap seriesNumbers = []) : calculateMaxValue series = none := by
  unfold calculateMaxValue
  rw [h]

/-- The enum-membership test inverts `chartTypeValue` exactly. -/
theorem chartTypeOfString_eq_some (str : String) (t : ChartType) :
    chartTypeOfString str = some t ↔ str = chartTypeValue t := by
  constructor
  · intro h
    unfold chartTypeOfString at h
    split_ifs at h <;> simp_all [chartTypeValue] <;> cases h <;> rfl
  · intro h
    subst h
    cases t <;> rfl

/-- The type-dependent default height is never the falsy number 0. -/
theorem setDefaultHeight_ne_zero (s : ChartState) : setDefaultHeight s ≠ 0 := by
  unfold setDefaultHeight poChartMinHeight poChartDefaultHeight
  split_ifs <;> norm_num

/-- The type-dependent default height is an integer of at least 200. -/
theorem setDefaultHeight_int (s : ChartState) :
    ∃ k : ℤ, setDefaultHeight s = (k : ℚ) ∧ 200 ≤ k := by
  unfold setDefaultHeight poChartMinHeight poChartDefaultHeight
  split_ifs
  · exact ⟨200, by norm_num, by norm_num⟩
  · exact ⟨400, by norm_num, by norm_num⟩

/-- A raw height whose `typeof` is not `number` resolves to the default. -/
theorem heightGet_setHeight_nonnumber (s : ChartState) (v : JSVal)
    (hv : isTypeof v "number" = false) :
    heightGet (setHeight s v) = setDefaultHeight s := by
  unfold setHeight heightGet
  simp only [hv, Bool.false_eq_true, if_false]
  rw [if_neg (setDefaultHeight_ne_zero s)]

/-- A `NaN` raw height fails the clamping comparison, is stored as `NaN`,
and the getter falls back to the default. -/
theorem heightGet_setHeight_nan (s : ChartState) :
    heightGet (setHeight s (.vnum none)) = setDefaultHeight s := rfl

/-- Reading back a stored finite height: 0 is falsy and falls back to the
default, any other stored number is returned as is. -/
theorem heightGet_store (s : ChartState) (q : ℚ) :
    heightGet { s with _height := some (some q), rebuilds := s.rebuilds + 1 } =
      if q = 0 then setDefaultHeight s else q := rfl

/-- A finite numeric raw height is truncated and clamped at 200. -/
theorem heightGet_setHeight_num (s : ChartState) (q : ℚ) :
    heightGet (setHeight s (.vnum (some q))) =
      ((if jsTrunc q ≤ 200 then 200 else jsTrunc q : ℤ) : ℚ) := by
  have hset : setHeight s (.vnum (some q)) =
      { s with
          _height := some (if ((jsTrunc q : ℤ) : ℚ) ≤ poChartMinHeight
                            then some poChartMinHeight
                            else some ((jsTrunc q : ℤ) : ℚ))
          rebuilds := s.rebuilds + 1 } := rfl
  by_cases hle : jsTrunc q ≤ (200 : ℤ)
  · have hle' : ((jsTrunc q : ℤ) : ℚ) ≤ poChartMinHeight := by
      unfold poChartMinHeight; exact_mod_cast hle
    rw [hset, if_pos hle', heightGet_store]
    rw [if_neg (by norm_num [poChartMinHeight] : ¬ (poChartMinHeight = (0 : ℚ)))]
    rw [if_pos hle]
    unfold poChartMinHeight
    norm_num
  · have hgt : (200 : ℤ) < jsTrunc q := lt_of_not_le hle
    have hle' : ¬ ((jsTrunc q : ℤ) : ℚ) ≤ poChartMinHeight := by
      unfold poChartMinHeight
      exact fun hc => hle (by exact_mod_cast hc)
    rw [hset, if_neg hle', heightGet_store]
    have hne0 : ((jsTrunc q : ℤ) : ℚ) ≠ 0 := by
      have h0 : (0 : ℚ) < ((jsTrunc q : ℤ) : ℚ) := by
        exact_mod_cast lt_trans (by norm_num : (0 : ℤ) < 200) hgt
      exact ne_of_gt h0
    rw [if_neg hne0, if_neg hle]

/-- Claim C2: a non-numeric raw height resolves to the type-dependent
default (200 for gauge, 400 otherwise); a finite numeric raw height is
truncated (not rounded) and values at most 200 are clamped to 200 while
larger values pass unchanged; in every case the resolved height is an
integer of at least 200. -/
theorem c2_height_resolution (s : ChartState) (v : JSVal) :
    (isTypeof v "number" = false →
       heightGet (setHeight s v) = (if s._type = ChartType.gauge then 200 else 400)) ∧
    (∀ q : ℚ, v = .vnum (some q) →
       heightGet (setHeight s v) = ((if jsTrunc q ≤ 200 then 200 else jsTrunc q : ℤ) : ℚ)) ∧
    (∃ k : ℤ, heightGet (setHeight s v) = (k : ℚ) ∧ 200 ≤ k) := by
  refine ⟨?_, ?_, ?_⟩
  · intro hv
    rw [heightGet_setHeight_nonnumber s v hv]
    rfl
  · rintro q rfl
    exact heightGet_setHeight_num s q
  · cases v with
    | vnum n =>
        cases n with
        | some q =>
            rw [heightGet_setHeight_num s q]
            by_cases hle : jsTrunc q ≤ (200 : ℤ)
            · exact ⟨200, by rw [if_pos hle], le_refl 200⟩
            · exact ⟨jsTrunc q, by rw [if_neg hle], le_of_lt (lt_of_not_le hle)⟩
        | none =>
            rw [heightGet_setHeight_nan s]
            exact setDefaultHeight_int s
    | vundefined =>
        rw [heightGet_setHeight_nonnumber s .vundefined rfl]
        exact setDefaultHeight_int s
    | vnull =>
        rw [heightGet_setHeight_nonnumber s .vnull rfl]
        exact setDefaultHeight_int s
    | vbool b =>
        rw [heightGet_setHeight_nonnumber s (.vbool b) rfl]
        exact setDefaultHeight_int s
    | vstr str =>
        rw [heightGet_setHeight_nonnumber s (.vstr str) rfl]
        exact setDefaultHeight_int s
    | varr l =>
        rw [heightGet_setHeight_nonnumber s (.varr l) rfl]
        exact setDefaultHeight_int s
    | vobj fields =>
        rw [heightGet_setHeight_nonnumber s (.vobj fields) rfl]
        exact setDefaultHeight_int s

/-- Witness for C2 at the spec's examples: 350.7 truncates to 350, 150
clamps to 200, 201 stays, and a null input yields the default 400. -/
theorem c2_witness :
    heightGet (setHeight initState (.vnum (some (mkRat 3507 10)))) =
      ((if jsTrunc (mkRat 3507 10) ≤ 200 then 200 else jsTrunc (mkRat 3507 10) : ℤ) : ℚ) ∧
    heightGet (setHeight initState (.vnum (some (mkRat 3507 10)))) = 350 ∧
    heightGet (setHeight initState (.vnum (some 150))) = 200 ∧
    heightGet (setHeight initState (.vnum (some 201))) = 201 ∧
    heightGet (setHeight initState .vnull) = 400 :=
  ⟨(c2_height_resolution initState _).2.1 (mkRat 3507 10) rfl,
   by decide, by decide, by decide, by decide⟩

/-- A falsy series input is replaced by the empty array: the collection
empties and the MinMax scan of the empty collection yields nothing. -/
theorem setSeries_of_falsy (s : ChartState) (v : JSVal) (hv : truthy v = false) :
    setSeries s v =
      .ok { s with _series := .varr [], minMaxValues := none, chartSeries := some [] } := by
  unfold setSeries
  simp only [hv, Bool.false_eq_true, if_false]
  rfl

/-- An array series input is taken as the collection and scanned. -/
theorem setSeries_varr (s : ChartState) (l : List JSVal) :
    setSeries s (.varr l) =
      .ok { s with _series := .varr l, minMaxValues := calculateMaxValue l,
                   chartSeries := some l } := rfl

/-- A single-object series input is wrapped (or dropped when empty); the
stored MinMax is not touched. -/
theorem setSeries_vobj (s : ChartState) (fields : List (String × JSVal)) :
    setSeries s (.vobj fields) =
      .ok { s with _series := .vobj fields,
                   chartSeries := some (if fields.length ≠ 0 then [JSVal.vobj fields] else []) } := by
  cases fields with
  | nil => rfl
  | cons kv rest => rfl

/-- A truthy series input that is not of object type is dropped by
`transformObjectToArrayObject`; the stored MinMax is not touched. -/
theorem setSeries_of_nonobject (s : ChartState) (v : JSVal)
    (hv : truthy v = true) (ht : typeof v ≠ "object") :
    setSeries s v = .ok { s with _series := v, chartSeries := some [] } := by
  cases v with
  | vundefined => exact absurd hv (by decide)
  | vnull => exact absurd rfl ht
  | varr l => exact absurd rfl ht
  | vobj fields => exact absurd rfl ht
  | vbool b =>
      cases b with
      | false => exact absurd hv (by decide)
      | true => rfl
  | vnum n =>
      cases n with
      | none => exact absurd hv (by decide)
      | some q =>
          unfold setSeries
          simp only [hv, if_true]
          rfl
  | vstr str =>
      unfold setSeries
      simp only [hv, if_true]
      rfl

/-- The series setter only writes `_series`, `minMaxValues` and
`chartSeries`; every other component field is untouched. -/
theorem setSeries_ok_shape (s : ChartState) (v : JSVal) (s' : ChartState)
    (h : setSeries s v = .ok s') :
    s'._height = s._height ∧ s'._type = s._type ∧ s'._axisOptions = s._axisOptions ∧
    s'.rebuilds = s.rebuilds ∧ s'.clickEmitted = s.clickEmitted ∧
    s'.hoverEmitted = s.hoverEmitted := by
  cases htr : truthy v with
  | false =>
      rw [setSeries_of_falsy s v htr] at h
      injection h with h
      subst h
      exact ⟨rfl, rfl, rfl, rfl, rfl, rfl⟩
  | true =>
      cases v with
      | vundefined => exact absurd htr (by decide)
      | vnull => exact absurd htr (by decide)
      | varr l =>
          rw [setSeries_varr s l] at h
          injection h with h
          subst h
          exact ⟨rfl, rfl, rfl, rfl, rfl, rfl⟩
      | vobj fields =>
          rw [setSeries_vobj s fields] at h
          injection h with h
          subst h
          exact ⟨rfl, rfl, rfl, rfl, rfl, rfl⟩
      | vbool b =>
          rw [setSeries_of_nonobject s (.vbool b) htr
                (show ("boolean" : String) ≠ "object" by decide)] at h
          injection h with h
          subst h
          exact ⟨rfl, rfl, rfl, rfl, rfl, rfl⟩
      | vnum n =>
          rw [setSeries_of_nonobject s (.vnum n) htr
                (show ("number" : String) ≠ "object" by decide)] at h
          injection h with h
          subst h
          exact ⟨rfl, rfl, rfl, rfl, rfl, rfl⟩
      | vstr str =>
          rw [setSeries_of_nonobject s (.vstr str) htr
                (show ("string" : String) ≠ "object" by decide)] at h
          injection h with h
          subst h
          exact ⟨rfl, rfl, rfl, rfl, rfl, rfl⟩

/-- Counterexample to claim C1: from a fresh component, setting the series
to the single gauge object `{value: 42}` wraps it as a one-element
collection but the stored MinMax stays undefined — it is NOT the claimed
`{min: 42, max: 42}`. -/
theorem c1_counterexample :
    (runSetSeries initState sampleGaugeSerie).chartSeries = some [sampleGaugeSerie] ∧
    (runSetSeries initState sampleGaugeSerie).minMaxValues ≠ some ⟨42, 42⟩ :=
  ⟨rfl, by decide⟩

/-- Claim C1 as amended: a non-array, non-empty object series input is
wrapped as a one-element collection, but MinMax is not recomputed — the
previously stored MinMax is kept (undefined on a fresh component). -/
theorem c1_nonarray_series_keeps_minmax (s : ChartState)
    (fields : List (String × JSVal)) (hne : fields ≠ []) :
    (runSetSeries s (.vobj fields)).chartSeries = some [JSVal.vobj fields] ∧
    (runSetSeries s (.vobj fields)).minMaxValues = s.minMaxValues := by
  have hlen : fields.length ≠ 0 := fun h0 => hne (List.length_eq_zero.mp h0)
  unfold runSetSeries
  rw [setSeries_vobj s fields, if_pos hlen]
  exact ⟨rfl, rfl⟩

/-- Witness for the amended C1 at the spec's gauge example `{value: 42}`. -/
theorem c1_witness :
    ([("value", JSVal.vnum (some 42))] : List (String × JSVal)) ≠ [] ∧
    (runSetSeries initState (.vobj [("value", JSVal.vnum (some 42))])).chartSeries =
      some [JSVal.vobj [("value", JSVal.vnum (some 42))]] ∧
    (runSetSeries initState (.vobj [("value", JSVal.vnum (some 42))])).minMaxValues =
      initState.minMaxValues :=
  ⟨List.cons_ne_nil _ _,
   (c1_nonarray_series_keeps_minmax initState _ (List.cons_ne_nil _ _)).1,
   (c1_nonarray_series_keeps_minmax initState _ (List.cons_ne_nil _ _)).2⟩

/-- Claim C3: an array series input becomes the collection unchanged, and
MinMax is the scan of the collection: empty scan means no MinMax, and a
computed MinMax is ordered, attained, and bounds every scanned value. -/
theorem c3_array_series_minmax (s : ChartState) (l : List JSVal) (s' : ChartState)
    (h : setSeries s (.varr l) = .ok s') :
    s'.chartSeries = some l ∧
    s'.minMaxValues = calculateMaxValue l ∧
    (l.flatMap seriesNumbers = [] → s'.minMaxValues = none) ∧
    ∀ mm, s'.minMaxValues = some mm →
      mm.min ≤ mm.max ∧
      mm.min ∈ l.flatMap seriesNumbers ∧ mm.max ∈ l.flatMap seriesNumbers ∧
      ∀ q ∈ l.flatMap seriesNumbers, mm.min ≤ q ∧ q ≤ mm.max := by
  rw [setSeries_varr s l] at h
  injection h with h
  subst h
  refine ⟨rfl, rfl, ?_, ?_⟩
  · intro h0
    exact calculateMaxValue_eq_none l h0
  · intro mm hmm
    exact calculateMaxValue_spec l mm hmm

/-- Witness for C3 at the spec's example
`[{label:'A', data:[1,5,3]}, {label:'B', data:[-2,9]}]`. -/
theorem c3_witness :
    setSeries initState (.varr [sampleSeriesA, sampleSeriesB]) =
      .ok (runSetSeries initState (.varr [sampleSeriesA, sampleSeriesB])) ∧
    (runSetSeries initState (.varr [sampleSeriesA, sampleSeriesB])).chartSeries =
      some [sampleSeriesA, sampleSeriesB] ∧
    (runSetSeries initState (.varr [sampleSeriesA, sampleSeriesB])).minMaxValues =
      some ⟨-2, 9⟩ :=
  ⟨rfl, (c3_array_series_minmax initState [sampleSeriesA, sampleSeriesB] _ rfl).1, by decide⟩

/-- Claim C5: from a fresh component, a falsy input, an empty object, or a
non-object input leaves an empty collection and an undefined MinMax. -/
theorem c5_empty_like_series (v : JSVal) (s' : ChartState)
    (hv : truthy v = false ∨ v = .vobj [] ∨ typeof v ≠ "object")
    (h : setSeries initState v = .ok s') :
    s'.chartSeries = some [] ∧ s'.minMaxValues = none := by
  rcases hv with hv | hv | hv
  · rw [setSeries_of_falsy initState v hv] at h
    injection h with h
    subst h
    exact ⟨rfl, rfl⟩
  · subst hv
    rw [setSeries_vobj initState []] at h
    injection h with h
    subst h
    exact ⟨rfl, rfl⟩
  · cases htr : truthy v with
    | false =>
        rw [setSeries_of_falsy initState v htr] at h
        injection h with h
        subst h
        exact ⟨rfl, rfl⟩
    | true =>
        rw [setSeries_of_nonobject initState v htr hv] at h
        injection h with h
        subst h
        exact ⟨rfl, rfl⟩

/-- Witness for C5 at the spec's example `normalizeSeries({})`. -/
theorem c5_witness :
    (truthy (JSVal.vobj []) = false ∨ JSVal.vobj [] = .vobj [] ∨
      typeof (JSVal.vobj []) ≠ "object") ∧
    (runSetSeries initState (.vobj [])).chartSeries = some [] ∧
    (runSetSeries initState (.vobj [])).minMaxValues = none :=
  ⟨Or.inr (Or.inl rfl),
   (c5_empty_like_series (.vobj []) _ (Or.inr (Or.inl rfl)) rfl).1,
   (c5_empty_like_series (.vobj []) _ (Or.inr (Or.inl rfl)) rfl).2⟩

/-- Claim C4: a raw type value that is a member of the ChartType
enumeration is kept unchanged; any other value resolves to the default
type, Pie. -/
theorem c4_type_resolution (s : ChartState) (v : JSVal) :
    (∀ t : ChartType, v = .vstr (chartTypeValue t) → (setType s v)._type = t) ∧
    ((∀ t : ChartType, v ≠ .vstr (chartTypeValue t)) → (setType s v)._type = poChartTypeDefault) := by
  constructor
  · rintro t rfl
    have h1 : chartTypeOfString (chartTypeValue t) = some t :=
      (chartTypeOfString_eq_some _ t).mpr rfl
    show (match chartTypeOfString (chartTypeValue t) with
          | some t' => t'
          | none => poChartTypeDefault) = t
    rw [h1]
  · intro hne
    cases v with
    | vstr str =>
        show (match chartTypeOfString str with
              | some t' => t'
              | none => poChartTypeDefault) = poChartTypeDefault
        rcases hstr : chartTypeOfString str with _ | t
        · rfl
        · exact absurd (congrArg JSVal.vstr ((chartTypeOfString_eq_some str t).mp hstr))
            (hne t)
    | vundefined => rfl
    | vnull => rfl
    | vbool b => rfl
    | vnum n => rfl
    | varr l => rfl
    | vobj fields => rfl

/-- Witness for C4: the member value gauge is kept; the spec's non-member
samples bogus, null and 123 all resolve to the default Pie. -/
theorem c4_witness :
    (setType initState (.vstr "gauge"))._type = ChartType.gauge ∧
    (setType initState (.vstr "bogus"))._type = poChartTypeDefault ∧
    (setType initState .vnull)._type = poChartTypeDefault ∧
    (setType initState (.vnum (some 123)))._type = poChartTypeDefault :=
  ⟨(c4_type_resolution initState _).1 ChartType.gauge rfl,
   (c4_type_resolution initState _).2
     (fun t => by cases t <;> (intro hc; injection hc with hc; exact absurd hc (by decide))),
   (c4_type_resolution initState _).2 (fun t hc => JSVal.noConfusion hc),
   (c4_type_resolution initState _).2 (fun t hc => JSVal.noConfusion hc)⟩

/-- Claim C7: the series setter is total — for every runtime value,
including wrong-shaped objects, missing values and `NaN`, it returns a
normally updated state and never propagates an exception. -/
theorem c7_setSeries_total (s : ChartState) (v : JSVal) :
    ∃ s' : ChartState, setSeries s v = Except.ok s' := by
  cases htr : truthy v with
  | false => exact ⟨_, setSeries_of_falsy s v htr⟩
  | true =>
      cases v with
      | vundefined => exact absurd htr (by decide)
      | vnull => exact absurd htr (by decide)
      | varr l => exact ⟨_, setSeries_varr s l⟩
      | vobj fields => exact ⟨_, setSeries_vobj s fields⟩
      | vbool b =>
          exact ⟨_, setSeries_of_nonobject s (.vbool b) htr
            (show ("boolean" : String) ≠ "object" by decide)⟩
      | vnum n =>
          exact ⟨_, setSeries_of_nonobject s (.vnum n) htr
            (show ("number" : String) ≠ "object" by decide)⟩
      | vstr str =>
          exact ⟨_, setSeries_of_nonobject s (.vstr str) htr
            (show ("string" : String) ≠ "object" by decide)⟩

/-- Claim C8: the click and hover relays deliver exactly the received
payload, exactly once, to their own listener — and nothing to the other. -/
theorem c8_event_relay (s : ChartState) (e : JSVal) :
    (onSeriesClick s e).clickEmitted = s.clickEmitted ++ [e] ∧
    (onSeriesHover s e).hoverEmitted = s.hoverEmitted ++ [e] ∧
    (onSeriesClick s e).hoverEmitted = s.hoverEmitted ∧
    (onSeriesHover s e).clickEmitted = s.clickEmitted :=
  ⟨rfl, rfl, rfl, rfl⟩

/-- Claim C9: setting the type twice with the same valid value is
idempotent — the second call leaves the resolved type, the stored height
and the observable height exactly as after the first call. -/
theorem c9_setType_idempotent (s : ChartState) (v : JSVal)
    (_hvalid : ∃ t : ChartType, v = .vstr (chartTypeValue t)) :
    (setType (setType s v) v)._type = (setType s v)._type ∧
    (setType (setType s v) v)._height = (setType s v)._height ∧
    heightGet (setType (setType s v) v) = heightGet (setType s v) :=
  ⟨rfl, rfl, rfl⟩

/-- Witness for C9 at the valid value pie. -/
theorem c9_witness :
    (∃ t : ChartType, JSVal.vstr "pie" = .vstr (chartTypeValue t)) ∧
    (setType (setType initState (.vstr "pie")) (.vstr "pie"))._type =
      (setType initState (.vstr "pie"))._type :=
  ⟨⟨ChartType.pie, rfl⟩,
   (c9_setType_idempotent initState (.vstr "pie") ⟨ChartType.pie, rfl⟩).1⟩

/-- Claim C10: the series setter leaves the stored height, type and axis
options unchanged and never signals a rebuild; the height and type setters
each signal exactly one rebuild, while the axis-options setter and the
event relays signal none. -/
theorem c10_series_setter_frame (s : ChartState) (v : JSVal) (s' : ChartState)
    (h : setSeries s v = .ok s') :
    (s'._height = s._height ∧ s'._type = s._type ∧ s'._axisOptions = s._axisOptions ∧
     s'.rebuilds = s.rebuilds) ∧
    (setHeight s v).rebuilds = s.rebuilds + 1 ∧
    (setType s v).rebuilds = s.rebuilds + 1 ∧
    (setAxisOptions s v).rebuilds = s.rebuilds ∧
    (onSeriesClick s v).rebuilds = s.rebuilds ∧
    (onSeriesHover s v).rebuilds = s.rebuilds := by
  have hs := setSeries_ok_shape s v s' h
  exact ⟨⟨hs.1, hs.2.1, hs.2.2.1, hs.2.2.2.1⟩, rfl, rfl, rfl, rfl, rfl⟩

/-- Witness for C10 at a concrete one-element array input. -/
theorem c10_witness :
    setSeries initState (.varr [sampleGaugeSerie]) =
      .ok (runSetSeries initState (.varr [sampleGaugeSerie])) ∧
    (runSetSeries initState (.varr [sampleGaugeSerie])).rebuilds = initState.rebuilds ∧
    (setHeight initState (.varr [sampleGaugeSerie])).rebuilds = initState.rebuilds + 1 :=
  ⟨rfl,
   ((c10_series_setter_frame initState (.varr [sampleGaugeSerie]) _ rfl).1).2.2.2,
   (c10_series_setter_frame initState (.varr [sampleGaugeSerie]) _ rfl).2.1⟩

/-- Claim C6: wrapping a non-empty serie object allocates a fresh object —
the input object is left unmutated, the stored element is a copy of its
fields at a different address, and any later field assignment on the
original leaves the stored copy unchanged. -/
theorem c6_shallow_copy_no_alias (h : Heap) (r : ℕ) (fields : List (String × JSVal))
    (hr : h.lookup r = some fields) (hne : fields ≠ []) :
    (transformObjectToArrayObjectRef h r).1.lookup r = some fields ∧
    (transformObjectToArrayObjectRef h r).2 = [h.objs.length] ∧
    r ≠ h.objs.length ∧
    (transformObjectToArrayObjectRef h r).1.lookup h.objs.length = some fields ∧
    ∀ (k : String) (w : JSVal),
      ((transformObjectToArrayObjectRef h r).1.setField r k w).lookup h.objs.length =
        some fields := by
  have hr' : h.objs.get? r = some fields := hr
  have hrlen : r < h.objs.length := by
    by_contra hge
    rw [List.get?_len_le (Nat.le_of_not_lt hge)] at hr'
    exact Option.noConfusion hr'
  have hlen : fields.length ≠ 0 := fun h0 => hne (List.length_eq_zero.mp h0)
  have htr : transformObjectToArrayObjectRef h r = (⟨h.objs ++ [fields]⟩, [h.objs.length]) := by
    unfold transformObjectToArrayObjectRef
    rw [hr']
    show (if fields.length ≠ 0 then ((⟨h.objs ++ [fields]⟩ : Heap), [h.objs.length])
          else (h, [])) = _
    rw [if_pos hlen]
  have happ : (h.objs ++ [fields]).get? r = some fields := by
    rw [List.get?_append hrlen]
    exact hr'
  have hconcat : (h.objs ++ [fields]).get? h.objs.length = some fields :=
    List.get?_concat_length h.objs fields
  rw [htr]
  refine ⟨happ, rfl, Nat.ne_of_lt hrlen, hconcat, ?_⟩
  intro k w
  show (Heap.setField ⟨h.objs ++ [fields]⟩ r k w).lookup h.objs.length = some fields
  unfold Heap.setField
  rw [show (Heap.mk (h.objs ++ [fields])).objs = h.objs ++ [fields] from rfl, happ]
  show ((h.objs ++ [fields]).set r (updateField fields k w)).get? h.objs.length = some fields
  rw [List.get?_set_ne _ _ (Nat.ne_of_lt hrlen)]
  exact hconcat

/-- Witness for C6 at the heap holding only `{value: 42}`: after mutating
the original's value field to 0, the copy at the fresh address 1 still
holds 42. -/
theorem c6_witness :
    (Heap.mk [[("value", JSVal.vnum (some 42))]]).lookup 0 =
      some [("value", JSVal.vnum (some 42))] ∧
    ([("value", JSVal.vnum (some 42))] : List (String × JSVal)) ≠ [] ∧
    ((transformObjectToArrayObjectRef ⟨[[("value", JSVal.vnum (some 42))]]⟩ 0).1.setField
        0 "value" (JSVal.vnum (some 0))).lookup 1 =
      some [("value", JSVal.vnum (some 42))] :=
  ⟨rfl, List.cons_ne_nil _ _,
   (c6_shallow_copy_no_alias ⟨[[("value", JSVal.vnum (some 42))]]⟩ 0 _ rfl
      (List.cons_ne_nil _ _)).2.2.2.2 "value" (JSVal.vnum (some 0))⟩
